import Mathlib

/-!
Shallow embedding of `src/cpp/decklink_wrapper.cpp` (class `DeckLinkSignalGen`
and its C-linkage adapter).

Hardware calls (`IDeckLinkOutput`, `IDeckLinkMutableVideoFrame`,
`IDeckLinkVideoBuffer`, metadata extensions) are modelled by an explicit
`Hardware` oracle record: each field is the outcome the vendor API returns for
the corresponding call during one operation.  The session state mirrors the
member variables of `DeckLinkSignalGen`; `double` fields of `HDRMetadata` are
modelled as exact rationals (no arithmetic is ever performed on them, they are
only stored and copied).  16-bit samples are modelled as `Nat`.
-/

namespace BMDSignalGen

/-- `BMDPixelFormat` tag values (32-bit FourCC codes from the DeckLink SDK). -/
def bmdFormat8BitYUV : Nat := 0x32767579

def bmdFormat10BitYUV : Nat := 0x76323130

def bmdFormat10BitYUVA : Nat := 0x41793130

def bmdFormat8BitARGB : Nat := 32

def bmdFormat8BitBGRA : Nat := 0x42475241

def bmdFormat10BitRGB : Nat := 0x72323130

def bmdFormat12BitRGB : Nat := 0x52313242

def bmdFormat12BitRGBLE : Nat := 0x5231324C

def bmdFormat10BitRGBXLE : Nat := 0x5231306C

def bmdFormat10BitRGBX : Nat := 0x52313062

/-- `bmdColorspaceRec2020` constant used by `applyHDRMetadata`. -/
def bmdColorspaceRec2020 : Nat := 0x32303230

/-- The fixed candidate array `supportedFormats[]` probed by
`cacheSupportedFormats`, in the order it appears in the source. -/
def probeOrder : List Nat :=
  [bmdFormat8BitYUV, bmdFormat10BitYUV, bmdFormat10BitYUVA,
   bmdFormat8BitARGB, bmdFormat8BitBGRA,
   bmdFormat10BitRGB, bmdFormat12BitRGB, bmdFormat12BitRGBLE,
   bmdFormat10BitRGBXLE, bmdFormat10BitRGBX]

/-- The `referencePrimaries` sub-record of `HDRMetadata`. -/
structure Primaries where
  RedX : Rat
  RedY : Rat
  GreenX : Rat
  GreenY : Rat
  BlueX : Rat
  BlueY : Rat
  WhiteX : Rat
  WhiteY : Rat
deriving Repr, DecidableEq

/-- The `HDRMetadata` struct (EOTF is an integer code; the caller may store any
value, the class performs no range validation). -/
structure HDRMetadata where
  EOTF : Int
  referencePrimaries : Primaries
  maxDisplayMasteringLuminance : Rat
  minDisplayMasteringLuminance : Rat
  maxCLL : Rat
  maxFALL : Rat
deriving Repr, DecidableEq

/-- The mastering-display metadata fields that `applyHDRMetadata` attaches to a
frame in the `EOTF == 2` branch (display primaries, white point, mastering
luminance, MaxCLL, MaxFALL). -/
structure MasteringFields where
  redX : Rat
  redY : Rat
  greenX : Rat
  greenY : Rat
  blueX : Rat
  blueY : Rat
  whiteX : Rat
  whiteY : Rat
  maxDML : Rat
  minDML : Rat
  maxCLL : Rat
  maxFALL : Rat
deriving Repr, DecidableEq

/-- The mastering fields taken from a metadata record, exactly the values the
`SetFloat` calls of `applyHDRMetadata` pass to the frame. -/
def masteringOf (m : HDRMetadata) : MasteringFields :=
  { redX := m.referencePrimaries.RedX
    redY := m.referencePrimaries.RedY
    greenX := m.referencePrimaries.GreenX
    greenY := m.referencePrimaries.GreenY
    blueX := m.referencePrimaries.BlueX
    blueY := m.referencePrimaries.BlueY
    whiteX := m.referencePrimaries.WhiteX
    whiteY := m.referencePrimaries.WhiteY
    maxDML := m.maxDisplayMasteringLuminance
    minDML := m.minDisplayMasteringLuminance
    maxCLL := m.maxCLL
    maxFALL := m.maxFALL }

/-- A device frame object (`IDeckLinkMutableVideoFrame`) together with the
metadata attached to it through `IDeckLinkVideoFrameMutableMetadataExtensions`.
`hdrFlag` models the `bmdFrameContainsHDRMetadata` bit of the frame flags;
a frame fresh from `CreateVideoFrame` carries `bmdFrameFlagDefault`
(no HDR bit) and no attached metadata. -/
structure FrameObj where
  width : Int
  height : Int
  rowBytes : Int
  pixelFormat : Nat
  hdrFlag : Bool
  colorspace : Option Nat
  eotf : Option Int
  mastering : Option MasteringFields
deriving Repr, DecidableEq

/-- Fresh frame as returned by `CreateVideoFrame(w, h, rowBytes, fmt,
bmdFrameFlagDefault, &frame)`. -/
def freshFrame (w h rb : Int) (pf : Nat) : FrameObj :=
  { width := w, height := h, rowBytes := rb, pixelFormat := pf
    hdrFlag := false, colorspace := none, eotf := none, mastering := none }

/-- The member state of `DeckLinkSignalGen`.  `hasOutput` models
`m_output != nullptr`; `frame` models `m_frame` (with its attached metadata). -/
structure SignalGenState where
  hasOutput : Bool
  frame : Option FrameObj
  width : Int
  height : Int
  outputEnabled : Bool
  pixelFormat : Nat
  formatsCached : Bool
  supportedFormats : List Nat
  pendingFrameData : List Nat
  hdrMetadata : HDRMetadata
deriving Repr, DecidableEq

/-- The default HDR metadata record written by the constructor
(Rec2020 / PQ preset). -/
def initHDRMetadata : HDRMetadata :=
  { EOTF := 2
    referencePrimaries :=
      { RedX := 0.708, RedY := 0.292
        GreenX := 0.170, GreenY := 0.797
        BlueX := 0.131, BlueY := 0.046
        WhiteX := 0.3127, WhiteY := 0.3290 }
    maxDisplayMasteringLuminance := 1000
    minDisplayMasteringLuminance := 0.0001
    maxCLL := 1000
    maxFALL := 50 }

/-- The state established by the `DeckLinkSignalGen` constructor.  `hasOutput`
is a parameter because `m_output` is assigned by `decklink_open_output_by_index`
right after construction (null when opening fails). -/
def initState (hasOutput : Bool) : SignalGenState :=
  { hasOutput := hasOutput
    frame := none
    width := 1920
    height := 1080
    outputEnabled := false
    pixelFormat := bmdFormat12BitRGBLE
    formatsCached := false
    supportedFormats := []
    pendingFrameData := []
    hdrMetadata := initHDRMetadata }

/-- Outcomes of the vendor-API calls one session operation may perform.
`rowBytesResult = none` models `RowBytesForPixelFormat` returning a failing
HRESULT; `packResult` is the value `pack_pixel_format` returns (0 on success,
its error code otherwise; its implementation lives in `pixel_packing.cpp`,
outside the wrapper, so its return value is an oracle input here). -/
structure Hardware where
  enableOk : Bool
  rowBytesResult : Option Int
  createFrameOk : Bool
  queryVideoBufferOk : Bool
  startAccessOk : Bool
  getBytesOk : Bool
  packResult : Int
  metadataExtOk : Bool
  scheduleOk : Bool
  playbackOk : Bool
deriving Repr, DecidableEq

/-- A hardware oracle on which every call succeeds (row stride `rb`). -/
def hwOk (rb : Int) : Hardware :=
  { enableOk := true, rowBytesResult := some rb, createFrameOk := true
    queryVideoBufferOk := true, startAccessOk := true, getBytesOk := true
    packResult := 0, metadataExtOk := true, scheduleOk := true,
    playbackOk := true }

/-- `DeckLinkSignalGen::startOutput`. -/
def startOutput (s : SignalGenState) (hw : Hardware) : Int × SignalGenState :=
  if !s.hasOutput then (-1, s)
  else if s.outputEnabled then (0, s)
  else if !hw.enableOk then (-1, s)
  else (0, { s with outputEnabled := true })

/-- `DeckLinkSignalGen::stopOutput`. -/
def stopOutput (s : SignalGenState) : Int × SignalGenState :=
  if !s.outputEnabled then (0, s)
  else (0, { s with outputEnabled := false })

/-- `DeckLinkSignalGen::applyHDRMetadata`.  When the metadata-extensions
interface is unavailable the function logs a warning and returns 0 without
touching the frame; otherwise it sets the colorspace and the EOTF value, and
for `EOTF == 2` sets the HDR frame flag and all mastering-display fields,
while for any other EOTF it clears the HDR frame flag (per-field `SetInt` /
`SetFloat` HRESULT failures only log and have no state effect). -/
def applyHDRMetadata (s : SignalGenState) (metadataExtOk : Bool) :
    Int × SignalGenState :=
  match s.frame with
  | none => (0, s)
  | some f =>
    if !metadataExtOk then (0, s)
    else
      let f1 := { f with colorspace := some bmdColorspaceRec2020
                         eotf := some s.hdrMetadata.EOTF }
      let f2 :=
        if s.hdrMetadata.EOTF = 2 then
          { f1 with hdrFlag := true, mastering := some (masteringOf s.hdrMetadata) }
        else
          { f1 with hdrFlag := false }
      (0, { s with frame := some f2 })

/-- Result of one `createFrame` call: the returned status code, the state after
the call, and observations of the device-buffer protocol (`StartAccess`
succeeded; `EndAccess` was called; `videoBuffer->Release` was called), whether
`applyHDRMetadata` was invoked, and the source data handed to
`pack_pixel_format` (if packing was reached). -/
structure CFOut where
  code : Int
  state : SignalGenState
  startAccessAcquired : Bool
  accessEnded : Bool
  bufferReleased : Bool
  hdrAttachInvoked : Bool
  packedSrc : Option (List Nat)
deriving Repr, DecidableEq

/-- `DeckLinkSignalGen::createFrame`.  On `CreateVideoFrame` failure the out
parameter is null, so `m_frame` is null afterwards. -/
def createFrame (s : SignalGenState) (hw : Hardware) : CFOut :=
  if !s.hasOutput || !s.outputEnabled then
    ⟨-1, s, false, false, false, false, none⟩
  else if s.pendingFrameData.isEmpty then
    ⟨-2, s, false, false, false, false, none⟩
  else
    match hw.rowBytesResult with
    | none => ⟨-3, s, false, false, false, false, none⟩
    | some rowBytes =>
      if !hw.createFrameOk then
        ⟨-4, { s with frame := none }, false, false, false, false, none⟩
      else
        let fr := freshFrame s.width s.height rowBytes s.pixelFormat
        let s1 := { s with frame := some fr }
        if !hw.queryVideoBufferOk then
          ⟨-5, s1, false, false, false, false, none⟩
        else if !hw.startAccessOk then
          ⟨-6, s1, false, false, true, false, none⟩
        else if !hw.getBytesOk then
          ⟨-7, s1, true, true, true, false, none⟩
        else
          let err := hw.packResult
          if err ≠ 0 then
            ⟨err, s1, true, true, true, false, some s.pendingFrameData⟩
          else if 0 ≤ s.hdrMetadata.EOTF then
            let r := applyHDRMetadata s1 hw.metadataExtOk
            ⟨0, r.2, true, true, true, true, some s.pendingFrameData⟩
          else
            ⟨0, s1, true, true, true, false, some s.pendingFrameData⟩

/-- `DeckLinkSignalGen::scheduleFrame`. -/
def scheduleFrame (s : SignalGenState) (hw : Hardware) : Int × SignalGenState :=
  if !s.hasOutput || s.frame.isNone then (-1, s)
  else if !hw.scheduleOk then (-1, s)
  else (0, s)

/-- `DeckLinkSignalGen::startPlayback`. -/
def startPlayback (s : SignalGenState) (hw : Hardware) : Int × SignalGenState :=
  if !s.hasOutput then (-1, s)
  else if !hw.playbackOk then (-1, s)
  else (0, s)

/-- Ordered insertion into a strictly ascending duplicate-free list: the
behaviour of `std::set<BMDPixelFormat>::insert` on the set's underlying
sorted sequence. -/
def setInsert (x : Nat) : List Nat → List Nat
  | [] => [x]
  | y :: ys =>
    if x < y then x :: y :: ys
    else if x = y then y :: ys
    else y :: setInsert x ys

/-- The contents of a `std::set<BMDPixelFormat>` after inserting every element
of `l`, read off in the set's iteration order (ascending tag value). -/
def setOfList (l : List Nat) : List Nat :=
  l.foldl (fun acc x => setInsert x acc) []

/-- `DeckLinkSignalGen::cacheSupportedFormats`.  `supports fmt` models
`DoesSupportVideoMode(bmdVideoConnectionUnspecified, bmdModeHD1080p30, fmt,
...) == S_OK && supported` for the fixed reference mode.  The confirmed tags
are accumulated in a `std::set` and then copied into `m_supportedFormats`
via `assign(uniqueFormats.begin(), uniqueFormats.end())`, i.e. in the set's
ascending iteration order. -/
def cacheSupportedFormats (s : SignalGenState) (supports : Nat → Bool) :
    SignalGenState :=
  if !s.hasOutput || s.formatsCached then s
  else
    { s with
      supportedFormats := setOfList (probeOrder.filter supports)
      formatsCached := true }

/-- `DeckLinkSignalGen::setPixelFormat`. -/
def setPixelFormat (s : SignalGenState) (supports : Nat → Bool)
    (pixelFormatIndex : Int) : Int × SignalGenState :=
  if !s.hasOutput then (-1, s)
  else
    let s1 := if !s.formatsCached then cacheSupportedFormats s supports else s
    if pixelFormatIndex < 0 ∨
        (s1.supportedFormats.length : Int) ≤ pixelFormatIndex then (-1, s1)
    else (0, { s1 with
      pixelFormat := s1.supportedFormats.getD pixelFormatIndex.toNat 0 })

/-- The index-search loop of `DeckLinkSignalGen::getPixelFormat`: first index
of `fmt` in `l`, or -1 when absent. -/
def findFormatIdx (fmt : Nat) : List Nat → Int
  | [] => -1
  | x :: xs =>
    if x = fmt then 0
    else
      let r := findFormatIdx fmt xs
      if r = -1 then -1 else r + 1

/-- `DeckLinkSignalGen::getPixelFormat`. -/
def getPixelFormat (s : SignalGenState) : Int :=
  if !s.formatsCached then -1
  else findFormatIdx s.pixelFormat s.supportedFormats

/-- `DeckLinkSignalGen::setHDRMetadata` (wholesale record replace, no
validation). -/
def setHDRMetadata (s : SignalGenState) (m : HDRMetadata) :
    Int × SignalGenState :=
  (0, { s with hdrMetadata := m })

/-- A caller-supplied frame-data pointer: `mem i` is the 16-bit sample read at
offset `i` from the pointer, and `len` is the length of the allocation the
caller actually made.  The C interface `setFrameData(const uint16_t*, int,
int)` receives only the pointer, never `len`. -/
structure FrameDataBuf where
  mem : Nat → Nat
  len : Nat

/-- `DeckLinkSignalGen::setFrameData`.  `data = none` models a null pointer.
On success the function copies `width*height*3` samples from the pointer into
`m_pendingFrameData` (`assign(data, data + dataSize)`). -/
def setFrameData (s : SignalGenState) (data : Option FrameDataBuf)
    (width height : Int) : Int × SignalGenState :=
  match data with
  | none => (-1, s)
  | some buf =>
    if width ≤ 0 ∨ height ≤ 0 then (-1, s)
    else
      let s1 :=
        if width ≠ s.width ∨ height ≠ s.height then
          { s with width := width, height := height }
        else s
      let dataSize := (width * height * 3).toNat
      (0, { s1 with pendingFrameData := (List.range dataSize).map buf.mem })

/-- One session operation, with the oracle inputs it consumes: the alphabet of
the Frame Session's public entry points that touch session state. -/
inductive Op where
  | opStartOutput (hw : Hardware)
  | opStopOutput
  | opCreateFrame (hw : Hardware)
  | opScheduleFrame (hw : Hardware)
  | opStartPlayback (hw : Hardware)
  | opSetPixelFormat (supports : Nat → Bool) (idx : Int)
  | opCacheFormats (supports : Nat → Bool)
  | opSetHDRMetadata (m : HDRMetadata)
  | opSetFrameData (data : Option FrameDataBuf) (w h : Int)

/-- The state reached by running one operation. -/
def applyOp (op : Op) (s : SignalGenState) : SignalGenState :=
  match op with
  | .opStartOutput hw => (startOutput s hw).2
  | .opStopOutput => (stopOutput s).2
  | .opCreateFrame hw => (createFrame s hw).state
  | .opScheduleFrame hw => (scheduleFrame s hw).2
  | .opStartPlayback hw => (startPlayback s hw).2
  | .opSetPixelFormat supports idx => (setPixelFormat s supports idx).2
  | .opCacheFormats supports => cacheSupportedFormats s supports
  | .opSetHDRMetadata m => (setHDRMetadata s m).2
  | .opSetFrameData data w h => (setFrameData s data w h).2

/-- The Source Frame Buffer size invariant: whenever the pending buffer is
non-empty its length is `width*height*3`. -/
def Inv (s : SignalGenState) : Prop :=
  s.pendingFrameData ≠ [] →
    (s.pendingFrameData.length : Int) = s.width * s.height * 3

/-- The supported-format catalog ordered as the spec describes it: confirmed
tags in first-discovery order of the fixed probe sequence.  (Refinement
reference only; the source orders by `std::set` iteration instead.) -/
def specCatalogProbeOrder (supports : Nat → Bool) : List Nat :=
  probeOrder.filter supports

end BMDSignalGen

/-! ## Lemmas about the `std::set`-backed catalog -/

namespace BMDSignalGen

lemma mem_setInsert (x z : Nat) : ∀ l : List Nat,
    z ∈ setInsert x l ↔ z = x ∨ z ∈ l
  | [] => by simp [setInsert]
  | y :: ys => by
    simp only [setInsert]
    split_ifs with h1 h2
    · simp [List.mem_cons]
    · subst h2; simp [List.mem_cons]
    · simp only [List.mem_cons, mem_setInsert x z ys]
      tauto

lemma sorted_setInsert (x : Nat) : ∀ l : List Nat,
    l.Sorted (· < ·) → (setInsert x l).Sorted (· < ·)
  | [], _ => by simp [setInsert]
  | y :: ys, h => by
    rw [List.sorted_cons] at h
    simp only [setInsert]
    split_ifs with h1 h2
    · rw [List.sorted_cons]
      refine ⟨?_, by rw [List.sorted_cons]; exact h⟩
      intro b hb
      rcases List.mem_cons.mp hb with rfl | hb
      · exact h1
      · exact h1.trans (h.1 b hb)
    · subst h2
      rw [List.sorted_cons]; exact h
    · rw [List.sorted_cons]
      refine ⟨?_, sorted_setInsert x ys h.2⟩
      intro b hb
      rcases (mem_setInsert x b ys).mp hb with rfl | hb
      · omega
      · exact h.1 b hb

lemma mem_foldl_setInsert (z : Nat) : ∀ (l acc : List Nat),
    z ∈ l.foldl (fun a x => setInsert x a) acc ↔ z ∈ acc ∨ z ∈ l
  | [], acc => by simp
  | x :: xs, acc => by
    simp only [List.foldl_cons, mem_foldl_setInsert z xs, mem_setInsert,
      List.mem_cons]
    tauto

lemma sorted_foldl_setInsert : ∀ (l acc : List Nat),
    acc.Sorted (· < ·) →
    (l.foldl (fun a x => setInsert x a) acc).Sorted (· < ·)
  | [], _, h => h
  | x :: xs, acc, h =>
    sorted_foldl_setInsert xs (setInsert x acc) (sorted_setInsert x acc h)

lemma mem_setOfList (z : Nat) (l : List Nat) : z ∈ setOfList l ↔ z ∈ l := by
  unfold setOfList
  rw [mem_foldl_setInsert]
  simp

lemma sorted_setOfList (l : List Nat) : (setOfList l).Sorted (· < ·) :=
  sorted_foldl_setInsert l [] (by simp)

lemma nodup_setOfList (l : List Nat) : (setOfList l).Nodup :=
  (sorted_setOfList l).nodup

end BMDSignalGen

/-! ## Structural lemmas about `createFrame` and `applyHDRMetadata` -/

namespace BMDSignalGen

lemma applyHDRMetadata_state_ex (s : SignalGenState) (ok : Bool) :
    ∃ fr, (applyHDRMetadata s ok).2 = { s with frame := fr } := by
  unfold applyHDRMetadata
  cases hf : s.frame with
  | none => exact ⟨s.frame, by simp [← hf]⟩
  | some f =>
    cases ok with
    | false => exact ⟨s.frame, by simp [← hf]⟩
    | true =>
      simp only [Bool.not_true]
      split_ifs <;> exact ⟨_, rfl⟩

end BMDSignalGen

namespace BMDSignalGen

lemma createFrame_state_ex (s : SignalGenState) (hw : Hardware) :
    ∃ fr, (createFrame s hw).state = { s with frame := fr } := by
  unfold createFrame
  dsimp only
  split
  · exact ⟨s.frame, rfl⟩
  split
  · exact ⟨s.frame, rfl⟩
  split
  · exact ⟨s.frame, rfl⟩
  split
  · exact ⟨none, rfl⟩
  split
  · exact ⟨_, rfl⟩
  split
  · exact ⟨_, rfl⟩
  split
  · exact ⟨_, rfl⟩
  split
  · exact ⟨_, rfl⟩
  split
  · exact (applyHDRMetadata_state_ex _ hw.metadataExtOk).elim fun fr2 hfr2 => ⟨fr2, hfr2⟩
  · exact ⟨_, rfl⟩


lemma createFrame_frame_irrelevant (s : SignalGenState) (fr : Option FrameObj)
    (hw : Hardware) :
    (createFrame { s with frame := fr } hw).code = (createFrame s hw).code ∧
    (createFrame { s with frame := fr } hw).packedSrc =
      (createFrame s hw).packedSrc := by
  unfold createFrame
  dsimp only
  constructor <;> (repeat' split) <;> rfl

lemma createFrame_success_packedSrc (s : SignalGenState) (hw : Hardware) :
    (createFrame s hw).code = 0 →
    (createFrame s hw).packedSrc = some s.pendingFrameData ∧
      s.pendingFrameData ≠ [] := by
  unfold createFrame
  dsimp only
  repeat' split
  all_goals intro h
  all_goals simp_all

lemma createFrame_code_nonpos (s : SignalGenState) (hw : Hardware)
    (hp : hw.packResult ≤ 0) : (createFrame s hw).code ≤ 0 := by
  unfold createFrame
  dsimp only
  repeat' split
  all_goals simp_all


/-- Claim C1: `createFrame` called while output is not enabled returns the
"no output enabled" code -1, and with output enabled but an empty pending
buffer returns the "no pending data" code -2; both checks happen before any
other work (no device-buffer access, no packing) and leave the session state
unchanged. -/
theorem createFrame_precondition_checks (s : SignalGenState) (hw : Hardware) :
    (s.outputEnabled = false →
      createFrame s hw = ⟨-1, s, false, false, false, false, none⟩) ∧
    (s.hasOutput = true → s.outputEnabled = true → s.pendingFrameData = [] →
      createFrame s hw = ⟨-2, s, false, false, false, false, none⟩) := by
  constructor
  · intro h
    unfold createFrame
    simp [h]
  · intro h1 h2 h3
    unfold createFrame
    simp [h1, h2, h3]

/-- Witness for C1 at concrete sessions: a fresh opened session (output not
enabled) and an enabled session with no pending data. -/
theorem createFrame_precondition_checks_witness :
    createFrame (initState true) (hwOk 8) =
      ⟨-1, initState true, false, false, false, false, none⟩ ∧
    createFrame { initState true with outputEnabled := true } (hwOk 8) =
      ⟨-2, { initState true with outputEnabled := true },
        false, false, false, false, none⟩ :=
  ⟨(createFrame_precondition_checks (initState true) (hwOk 8)).1 rfl,
   (createFrame_precondition_checks
      { initState true with outputEnabled := true } (hwOk 8)).2 rfl rfl rfl⟩

/-- Claim C7: during `createFrame`, once write access to the device frame
buffer is acquired (`StartAccess` succeeded), `EndAccess` and the buffer
release are performed on every exit path — success, `GetBytes` failure, and
packer failure alike — so the session never returns with the device buffer
locked for write. -/
theorem createFrame_releases_buffer_access (s : SignalGenState) (hw : Hardware)
    (h : (createFrame s hw).startAccessAcquired = true) :
    (createFrame s hw).accessEnded = true ∧
    (createFrame s hw).bufferReleased = true := by
  revert h
  unfold createFrame
  dsimp only
  repeat' split
  all_goals intro h
  all_goals simp_all

def enabledState : SignalGenState :=
  { initState true with outputEnabled := true }

def readyState : SignalGenState :=
  { enabledState with pendingFrameData := [0, 0, 0] }

/-- Witness for C7 on a concrete successful `createFrame`. -/
theorem createFrame_releases_buffer_access_witness :
    (createFrame readyState (hwOk 8)).startAccessAcquired = true ∧
    (createFrame readyState (hwOk 8)).accessEnded = true ∧
    (createFrame readyState (hwOk 8)).bufferReleased = true :=
  ⟨by decide,
   (createFrame_releases_buffer_access readyState (hwOk 8) (by decide)).1,
   (createFrame_releases_buffer_access readyState (hwOk 8) (by decide)).2⟩

/-- Claim C8: a successful `createFrame` leaves the stored source frame
buffer and dimensions exactly as the last `setFrameData` stored them, packs
exactly that pending data, and a second `createFrame` without an intervening
`setFrameData` succeeds again and re-packs the same (stale) data rather than
failing or packing cleared data. -/
theorem createFrame_preserves_pending_data (s : SignalGenState) (hw : Hardware)
    (h : (createFrame s hw).code = 0) :
    (createFrame s hw).state.pendingFrameData = s.pendingFrameData ∧
    (createFrame s hw).state.width = s.width ∧
    (createFrame s hw).state.height = s.height ∧
    (createFrame s hw).packedSrc = some s.pendingFrameData ∧
    s.pendingFrameData ≠ [] ∧
    (createFrame ((createFrame s hw).state) hw).code = 0 ∧
    (createFrame ((createFrame s hw).state) hw).packedSrc =
      some s.pendingFrameData := by
  obtain ⟨fr, hst⟩ := createFrame_state_ex s hw
  obtain ⟨hpk, hne⟩ := createFrame_success_packedSrc s hw h
  refine ⟨by rw [hst], by rw [hst], by rw [hst], hpk, hne, ?_, ?_⟩
  · rw [hst, (createFrame_frame_irrelevant s fr hw).1]
    exact h
  · rw [hst, (createFrame_frame_irrelevant s fr hw).2]
    exact hpk


lemma applyHDRMetadata_frame (s : SignalGenState) (f0 : FrameObj)
    (hf : s.frame = some f0) :
    ∃ f : FrameObj, (applyHDRMetadata s true).2.frame = some f ∧
      f.eotf = some s.hdrMetadata.EOTF ∧
      (f.hdrFlag = true ↔ s.hdrMetadata.EOTF = 2) ∧
      (s.hdrMetadata.EOTF = 2 → f.mastering = some (masteringOf s.hdrMetadata)) ∧
      (s.hdrMetadata.EOTF ≠ 2 → f.mastering = f0.mastering) := by
  unfold applyHDRMetadata
  rw [hf]
  simp only [Bool.not_true, Bool.false_eq_true, if_false]
  split_ifs with h2
  · exact ⟨_, rfl, rfl, by simp [h2], fun _ => rfl, fun hne => absurd h2 hne⟩
  · exact ⟨_, rfl, rfl, by simp [h2], fun hc => absurd hc h2, fun _ => rfl⟩

/-- Claim C2 (amended): on every successful `createFrame`, the HDR-metadata
attach step is invoked iff the stored EOTF is ≥ 0 (hence always for the
in-domain EOTF codes 0-7); whenever it is invoked and the metadata-extensions
interface is available, the EOTF value is written to the frame, and the
mastering-display fields are attached and the HDR frame flag set exactly when
the stored EOTF equals 2 (PQ), while for any other EOTF those fields are
absent and the HDR flag is cleared. -/
theorem createFrame_hdr_attach_behavior (s : SignalGenState) (hw : Hardware)
    (h : (createFrame s hw).code = 0) :
    (((createFrame s hw).hdrAttachInvoked = true) ↔ 0 ≤ s.hdrMetadata.EOTF) ∧
    (0 ≤ s.hdrMetadata.EOTF → hw.metadataExtOk = true →
      ∃ f : FrameObj, (createFrame s hw).state.frame = some f ∧
        f.eotf = some s.hdrMetadata.EOTF ∧
        (f.hdrFlag = true ↔ s.hdrMetadata.EOTF = 2) ∧
        (s.hdrMetadata.EOTF = 2 → f.mastering = some (masteringOf s.hdrMetadata)) ∧
        (s.hdrMetadata.EOTF ≠ 2 → f.mastering = none)) := by
  revert h
  unfold createFrame
  dsimp only
  split
  · intro h; exact absurd h (by norm_num)
  split
  · intro h; exact absurd h (by norm_num)
  split
  · intro h; exact absurd h (by norm_num)
  next rowBytes _ =>
    split
    · intro h; exact absurd h (by norm_num)
    split
    · intro h; exact absurd h (by norm_num)
    split
    · intro h; exact absurd h (by norm_num)
    split
    · intro h; exact absurd h (by norm_num)
    split
    · next hne => intro h; exact absurd h hne
    split
    · next hE =>
      intro _
      refine ⟨by simp [hE], fun _ hmeo => ?_⟩
      rw [hmeo]
      obtain ⟨f, hf, h1, h2, h3, h4⟩ := applyHDRMetadata_frame
        { s with frame := some (freshFrame s.width s.height rowBytes s.pixelFormat) }
        (freshFrame s.width s.height rowBytes s.pixelFormat) rfl
      exact ⟨f, hf, h1, h2, h3, fun hne => h4 hne⟩
    · next hE =>
      intro _
      exact ⟨by simp [hE], fun hc => absurd hc hE⟩


def eotfNegState : SignalGenState :=
  { readyState with hdrMetadata := { initHDRMetadata with EOTF := -1 } }

/-- Counterexample to claim C2 as stated: with stored EOTF = -1 (the caller
may store any integer, no validation), `createFrame` succeeds (code 0) but the
HDR-metadata attach step is NOT invoked — the source guards it with the
condition `m_hdrMetadata.EOTF >= 0` — so the EOTF value is not written to the
frame.  The attach step is therefore not unconditional. -/
theorem createFrame_hdr_attach_not_unconditional :
    (createFrame eotfNegState (hwOk 8)).code = 0 ∧
    (createFrame eotfNegState (hwOk 8)).hdrAttachInvoked = false ∧
    (createFrame eotfNegState (hwOk 8)).state.frame.map FrameObj.eotf =
      some none ∧
    ¬ 0 ≤ eotfNegState.hdrMetadata.EOTF := by
  decide

/-- Witness for the amended C2 at a concrete PQ session (default EOTF = 2). -/
theorem createFrame_hdr_attach_behavior_witness :
    (createFrame readyState (hwOk 8)).code = 0 ∧
    ((((createFrame readyState (hwOk 8)).hdrAttachInvoked = true) ↔
        0 ≤ readyState.hdrMetadata.EOTF) ∧
      (0 ≤ readyState.hdrMetadata.EOTF → (hwOk 8).metadataExtOk = true →
        ∃ f : FrameObj,
          (createFrame readyState (hwOk 8)).state.frame = some f ∧
          f.eotf = some readyState.hdrMetadata.EOTF ∧
          (f.hdrFlag = true ↔ readyState.hdrMetadata.EOTF = 2) ∧
          (readyState.hdrMetadata.EOTF = 2 →
            f.mastering = some (masteringOf readyState.hdrMetadata)) ∧
          (readyState.hdrMetadata.EOTF ≠ 2 → f.mastering = none))) :=
  ⟨by decide, createFrame_hdr_attach_behavior readyState (hwOk 8) (by decide)⟩

def suppYUVandARGB : Nat → Bool :=
  fun t => t == bmdFormat8BitYUV || t == bmdFormat8BitARGB

/-- Counterexample to claim C3 as stated: for a device confirming exactly
the two tags 8BitYUV and 8BitARGB, the probe sequence discovers 8BitYUV
(tag 0x32767579) first and 8BitARGB (tag 32) fourth, but the built catalog
lists [32, 0x32767579] — ascending tag order (`std::set` iteration), not
first-discovery probe order. -/
theorem catalog_not_probe_order :
    (cacheSupportedFormats (initState true) suppYUVandARGB).supportedFormats =
      [bmdFormat8BitARGB, bmdFormat8BitYUV] ∧
    specCatalogProbeOrder suppYUVandARGB =
      [bmdFormat8BitYUV, bmdFormat8BitARGB] ∧
    (cacheSupportedFormats (initState true) suppYUVandARGB).supportedFormats ≠
      specCatalogProbeOrder suppYUVandARGB := by
  decide

/-- Claim C3 (amended): after a catalog build the supported-format catalog
lists exactly the candidate tags confirmed by the capability probe, each once,
ordered ascending by numeric tag value (the iteration order of the
`std::set<BMDPixelFormat>` accumulator), not in probe order. -/
theorem catalog_sorted_by_tag (s : SignalGenState) (supports : Nat → Bool)
    (ho : s.hasOutput = true) (hc : s.formatsCached = false) :
    (cacheSupportedFormats s supports).supportedFormats.Sorted (· < ·) ∧
    (cacheSupportedFormats s supports).supportedFormats.Nodup ∧
    ∀ t, t ∈ (cacheSupportedFormats s supports).supportedFormats ↔
      (t ∈ probeOrder ∧ supports t = true) := by
  unfold cacheSupportedFormats
  simp only [ho, hc, Bool.not_true, Bool.false_or, Bool.false_eq_true, if_false]
  exact ⟨sorted_setOfList _, nodup_setOfList _,
    fun t => by rw [mem_setOfList, List.mem_filter]⟩

/-- Witness for the amended C3 at a concrete fresh session and probe
outcome. -/
theorem catalog_sorted_by_tag_witness :
    (initState true).hasOutput = true ∧
    (initState true).formatsCached = false ∧
    ((cacheSupportedFormats (initState true) suppYUVandARGB).supportedFormats.Sorted (· < ·) ∧
     (cacheSupportedFormats (initState true) suppYUVandARGB).supportedFormats.Nodup ∧
     ∀ t, t ∈ (cacheSupportedFormats (initState true) suppYUVandARGB).supportedFormats ↔
       (t ∈ probeOrder ∧ suppYUVandARGB t = true)) :=
  ⟨rfl, rfl, catalog_sorted_by_tag (initState true) suppYUVandARGB rfl rfl⟩

/-- Claim C4: rebuilding the catalog twice without an explicit invalidation
is a no-op (the second call returns the state unchanged, so contents and
index assignments are identical), and the catalog never contains two entries
with the same tag. -/
theorem cacheSupportedFormats_idempotent (s : SignalGenState)
    (f g : Nat → Bool) :
    cacheSupportedFormats (cacheSupportedFormats s f) g =
      cacheSupportedFormats s f ∧
    (s.supportedFormats.Nodup →
      (cacheSupportedFormats s f).supportedFormats.Nodup) := by
  constructor
  · unfold cacheSupportedFormats
    split_ifs <;> simp_all
  · intro hnd
    unfold cacheSupportedFormats
    split_ifs with h1
    · exact hnd
    · exact nodup_setOfList _

/-- Witness for C4 at a concrete session and probe outcome. -/
theorem cacheSupportedFormats_idempotent_witness :
    cacheSupportedFormats
        (cacheSupportedFormats (initState true) suppYUVandARGB)
        (fun _ => true) =
      cacheSupportedFormats (initState true) suppYUVandARGB ∧
    (initState true).supportedFormats.Nodup ∧
    (cacheSupportedFormats (initState true) suppYUVandARGB).supportedFormats.Nodup :=
  ⟨(cacheSupportedFormats_idempotent (initState true) suppYUVandARGB
      (fun _ => true)).1,
   by decide,
   (cacheSupportedFormats_idempotent (initState true) suppYUVandARGB
      (fun _ => true)).2 (by decide)⟩


/-- Counterexample to claim C5 as stated: a 5-sample allocation passed with
width = height = 1 (which requires 1*1*3 = 3 samples) does NOT fail with
"invalid input" — `setFrameData` receives only the raw pointer, performs no
length check, and succeeds, copying 3 samples. -/
theorem setFrameData_no_length_check :
    (setFrameData (initState true) (some ⟨fun _ => 7, 5⟩) 1 1).1 = 0 ∧
    (setFrameData (initState true) (some ⟨fun _ => 7, 5⟩) 1 1).2.pendingFrameData = [7, 7, 7] ∧
    (5 : Nat) ≠ (1 * 1 * 3 : Nat) :=
  ⟨rfl, rfl, by decide⟩

/-- Claim C5 (amended): `setFrameData` fails with the "invalid input" code
-1 exactly when the buffer pointer is null or width ≤ 0 or height ≤ 0, and in
those cases the stored pending data and dimensions are unchanged; for a
non-null pointer and positive dimensions it succeeds unconditionally — no
buffer-length validation exists (the C interface receives no length), and
exactly width*height*3 samples are read from the pointer. -/
theorem setFrameData_validation (s : SignalGenState)
    (data : Option FrameDataBuf) (w h : Int) :
    ((data = none ∨ w ≤ 0 ∨ h ≤ 0) → setFrameData s data w h = (-1, s)) ∧
    (∀ buf, data = some buf → 0 < w → 0 < h →
      (setFrameData s data w h).1 = 0 ∧
      (setFrameData s data w h).2.pendingFrameData =
        (List.range (w * h * 3).toNat).map buf.mem ∧
      (setFrameData s data w h).2.width = w ∧
      (setFrameData s data w h).2.height = h) := by
  constructor
  · rintro (rfl | hw | hh)
    · rfl
    · cases data with
      | none => rfl
      | some buf =>
        unfold setFrameData
        dsimp only
        rw [if_pos (Or.inl hw)]
    · cases data with
      | none => rfl
      | some buf =>
        unfold setFrameData
        dsimp only
        rw [if_pos (Or.inr hh)]
  · rintro buf rfl hw hh
    unfold setFrameData
    dsimp only
    rw [if_neg (show ¬(w ≤ 0 ∨ h ≤ 0) from by omega)]
    dsimp only
    refine ⟨rfl, rfl, ?_, ?_⟩ <;> (split_ifs <;> first | rfl | omega)

/-- Witness for the amended C5: null pointer fails; a 5-sample allocation
with 1x1 dimensions succeeds. -/
theorem setFrameData_validation_witness :
    setFrameData (initState true) none 2 2 = (-1, initState true) ∧
    ((setFrameData (initState true) (some ⟨fun _ => 7, 5⟩) 1 1).1 = 0 ∧
      (setFrameData (initState true) (some ⟨fun _ => 7, 5⟩) 1 1).2.pendingFrameData =
        (List.range ((1 : Int) * 1 * 3).toNat).map (fun _ => 7) ∧
      (setFrameData (initState true) (some ⟨fun _ => 7, 5⟩) 1 1).2.width = 1 ∧
      (setFrameData (initState true) (some ⟨fun _ => 7, 5⟩) 1 1).2.height = 1) :=
  ⟨(setFrameData_validation (initState true) none 2 2).1 (Or.inl rfl),
   (setFrameData_validation (initState true) (some ⟨fun _ => 7, 5⟩) 1 1).2
      ⟨fun _ => 7, 5⟩ rfl (by norm_num) (by norm_num)⟩

/-- Counterexample to claim C6 as stated: the same negative code -1 is
returned for unrelated failure causes — `startOutput` with no output interface
attached, `startOutput` with the hardware rejecting `EnableVideoOutput`, and
`setPixelFormat` with an out-of-range index. -/
theorem status_code_shared_across_causes :
    (initState false).hasOutput = false ∧
    (startOutput (initState false) (hwOk 8)).1 = -1 ∧
    (initState true).hasOutput = true ∧
    (initState true).outputEnabled = false ∧
    (startOutput (initState true) { hwOk 8 with enableOk := false }).1 = -1 ∧
    (setPixelFormat (initState true) (fun _ => false) 0).1 = -1 := by
  decide

/-- Claim C6 (amended): every state-touching entry point returns a small
signed integer status code that is 0 on success and negative on failure
(for `createFrame` provided the packer reports failure by a negative code),
but distinct failure classes do NOT always map to distinct negative values:
-1 is shared across unrelated causes; only `createFrame` separates its
failure classes as -1..-7. -/
theorem status_codes_nonpositive (s : SignalGenState) (hw : Hardware)
    (supports : Nat → Bool) (idx w h : Int) (data : Option FrameDataBuf)
    (m : HDRMetadata) (hp : hw.packResult ≤ 0) :
    (startOutput s hw).1 ≤ 0 ∧ (stopOutput s).1 ≤ 0 ∧
    (createFrame s hw).code ≤ 0 ∧ (scheduleFrame s hw).1 ≤ 0 ∧
    (startPlayback s hw).1 ≤ 0 ∧ (setPixelFormat s supports idx).1 ≤ 0 ∧
    (setFrameData s data w h).1 ≤ 0 ∧ (setHDRMetadata s m).1 ≤ 0 := by
  refine ⟨?_, ?_, createFrame_code_nonpos s hw hp, ?_, ?_, ?_, ?_, ?_⟩
  · unfold startOutput; split_ifs <;> norm_num
  · unfold stopOutput; split_ifs <;> norm_num
  · unfold scheduleFrame; split_ifs <;> norm_num
  · unfold startPlayback; split_ifs <;> norm_num
  · unfold setPixelFormat
    dsimp only
    repeat' split
    all_goals norm_num
  · unfold setFrameData
    cases data with
    | none => norm_num
    | some buf => dsimp only; split_ifs <;> norm_num
  · unfold setHDRMetadata; norm_num

/-- Witness for the amended C6 at concrete inputs. -/
theorem status_codes_nonpositive_witness :
    (hwOk 8).packResult ≤ 0 ∧
    ((startOutput (initState true) (hwOk 8)).1 ≤ 0 ∧
      (stopOutput (initState true)).1 ≤ 0 ∧
      (createFrame (initState true) (hwOk 8)).code ≤ 0 ∧
      (scheduleFrame (initState true) (hwOk 8)).1 ≤ 0 ∧
      (startPlayback (initState true) (hwOk 8)).1 ≤ 0 ∧
      (setPixelFormat (initState true) suppYUVandARGB 0).1 ≤ 0 ∧
      (setFrameData (initState true) none 1 1).1 ≤ 0 ∧
      (setHDRMetadata (initState true) initHDRMetadata).1 ≤ 0) :=
  ⟨by decide,
   status_codes_nonpositive (initState true) (hwOk 8) suppYUVandARGB 0 1 1
      none initHDRMetadata (by decide)⟩


lemma inv_mono {s t : SignalGenState}
    (hp : t.pendingFrameData = s.pendingFrameData) (hwd : t.width = s.width)
    (hh : t.height = s.height) (h : Inv s) : Inv t := by
  intro hne
  rw [hp, hwd, hh]
  exact h (by rwa [hp] at hne)

/-- Claim C9: the invariant "whenever the stored source frame buffer is
non-empty, its length equals width*height*3" holds of a fresh session and is
preserved by every session operation. -/
theorem session_invariant_preserved :
    (∀ b, Inv (initState b)) ∧ (∀ op s, Inv s → Inv (applyOp op s)) := by
  constructor
  · intro b hne
    exact absurd rfl hne
  intro op s h
  cases op with
  | opStartOutput hw =>
    refine inv_mono ?_ ?_ ?_ h <;>
      (simp only [applyOp]; unfold startOutput; split_ifs <;> rfl)
  | opStopOutput =>
    refine inv_mono ?_ ?_ ?_ h <;>
      (simp only [applyOp]; unfold stopOutput; split_ifs <;> rfl)
  | opCreateFrame hw =>
    obtain ⟨fr, hst⟩ := createFrame_state_ex s hw
    refine inv_mono ?_ ?_ ?_ h <;> simp [applyOp, hst]
  | opScheduleFrame hw =>
    refine inv_mono ?_ ?_ ?_ h <;>
      (simp only [applyOp]; unfold scheduleFrame; split_ifs <;> rfl)
  | opStartPlayback hw =>
    refine inv_mono ?_ ?_ ?_ h <;>
      (simp only [applyOp]; unfold startPlayback; split_ifs <;> rfl)
  | opSetPixelFormat supports idx =>
    refine inv_mono ?_ ?_ ?_ h <;>
      (simp only [applyOp]; unfold setPixelFormat cacheSupportedFormats;
       dsimp only
       repeat' split
       all_goals rfl)
  | opCacheFormats supports =>
    refine inv_mono ?_ ?_ ?_ h <;>
      (simp only [applyOp]; unfold cacheSupportedFormats; split_ifs <;> rfl)
  | opSetHDRMetadata m =>
    refine inv_mono ?_ ?_ ?_ h <;> (simp only [applyOp]; rfl)
  | opSetFrameData data w hgt =>
    cases data with
    | none => exact h
    | some buf =>
      simp only [applyOp]
      unfold setFrameData
      dsimp only
      split_ifs with h1 h2
      · exact h
      all_goals intro _
      all_goals simp only [List.length_map, List.length_range]
      all_goals have hw0 : (0 : Int) < w := by omega
      all_goals have hh0 : (0 : Int) < hgt := by omega
      all_goals have key : (((w * hgt * 3).toNat : Nat) : Int) = w * hgt * 3 :=
        Int.toNat_of_nonneg (le_of_lt (by positivity))
      · exact key
      · have hww : w = s.width := by omega
        have hhh : hgt = s.height := by omega
        rw [← hww, ← hhh]
        exact key

/-- Witness for C9: the invariant holds concretely of a fresh session and
after a concrete `setFrameData`. -/
theorem session_invariant_preserved_witness :
    Inv (initState true) ∧
    Inv (applyOp (.opSetFrameData (some ⟨fun _ => 7, 5⟩) 1 1) (initState true)) :=
  ⟨session_invariant_preserved.1 true,
   session_invariant_preserved.2 (.opSetFrameData (some ⟨fun _ => 7, 5⟩) 1 1)
     (initState true) (session_invariant_preserved.1 true)⟩

lemma findFormatIdx_not_mem (fmt : Nat) :
    ∀ l : List Nat, fmt ∉ l → findFormatIdx fmt l = -1
  | [], _ => rfl
  | x :: xs, h => by
    have hx : ¬ x = fmt := fun hx => h (hx ▸ List.mem_cons_self x xs)
    have hr := findFormatIdx_not_mem fmt xs (fun hm => h (List.mem_cons_of_mem x hm))
    unfold findFormatIdx
    rw [if_neg hx]
    dsimp only
    rw [hr]
    simp

lemma findFormatIdx_first (fmt : Nat) : ∀ l : List Nat, fmt ∈ l →
    0 ≤ findFormatIdx fmt l ∧
    l.get? (findFormatIdx fmt l).toNat = some fmt ∧
    ∀ j : Nat, j < (findFormatIdx fmt l).toNat → l.get? j ≠ some fmt
  | [], h => absurd h (List.not_mem_nil fmt)
  | x :: xs, h => by
    by_cases hx : x = fmt
    · subst hx
      unfold findFormatIdx
      rw [if_pos rfl]
      exact ⟨le_refl 0, rfl, fun j hj => absurd hj (by omega)⟩
    · have hmem : fmt ∈ xs := by
        rcases List.mem_cons.mp h with h1 | h1
        · exact absurd h1.symm hx
        · exact h1
      obtain ⟨h0, hg, hmin⟩ := findFormatIdx_first fmt xs hmem
      unfold findFormatIdx
      rw [if_neg hx]
      dsimp only
      rw [if_neg (by omega)]
      have htn : (findFormatIdx fmt xs + 1).toNat =
          (findFormatIdx fmt xs).toNat + 1 := by omega
      refine ⟨by omega, ?_, ?_⟩
      · rw [htn]
        exact hg
      · intro j hj
        rw [htn] at hj
        cases j with
        | zero => simp [hx]
        | succ j => exact hmin j (by omega)

/-- Claim C10: `getPixelFormat` returns -1 on every session whose catalog
has not been built (even though the constructor sets the default active
format 12-bit RGB LE), and after a build returns -1 when the active format is
not in the catalog, otherwise the first index at which it appears. -/
theorem getPixelFormat_spec :
    (∀ b, getPixelFormat (initState b) = -1 ∧
      (initState b).pixelFormat = bmdFormat12BitRGBLE) ∧
    (∀ s : SignalGenState, s.formatsCached = false → getPixelFormat s = -1) ∧
    (∀ s : SignalGenState, s.formatsCached = true →
      (s.pixelFormat ∉ s.supportedFormats → getPixelFormat s = -1) ∧
      (s.pixelFormat ∈ s.supportedFormats →
        0 ≤ getPixelFormat s ∧
        s.supportedFormats.get? (getPixelFormat s).toNat = some s.pixelFormat ∧
        ∀ j : Nat, j < (getPixelFormat s).toNat →
          s.supportedFormats.get? j ≠ some s.pixelFormat)) := by
  refine ⟨fun b => ⟨rfl, rfl⟩, fun s hc => ?_,
    fun s hc => ⟨fun hnm => ?_, fun hm => ?_⟩⟩
  · unfold getPixelFormat
    rw [hc]
    rfl
  · unfold getPixelFormat
    rw [hc]
    exact findFormatIdx_not_mem _ _ hnm
  · unfold getPixelFormat
    rw [hc]
    exact findFormatIdx_first _ _ hm

/-- Witness for C10: a fresh session returns -1; after a build with every
probe confirmed, the default format is found at its first index. -/
theorem getPixelFormat_spec_witness :
    getPixelFormat (initState true) = -1 ∧
    (cacheSupportedFormats (initState true) (fun _ => true)).formatsCached = true ∧
    (cacheSupportedFormats (initState true) (fun _ => true)).pixelFormat ∈
      (cacheSupportedFormats (initState true) (fun _ => true)).supportedFormats ∧
    0 ≤ getPixelFormat (cacheSupportedFormats (initState true) (fun _ => true)) ∧
    (cacheSupportedFormats (initState true) (fun _ => true)).supportedFormats.get?
        (getPixelFormat (cacheSupportedFormats (initState true) (fun _ => true))).toNat =
      some (cacheSupportedFormats (initState true) (fun _ => true)).pixelFormat ∧
    ∀ j : Nat,
      j < (getPixelFormat (cacheSupportedFormats (initState true) (fun _ => true))).toNat →
      (cacheSupportedFormats (initState true) (fun _ => true)).supportedFormats.get? j ≠
        some (cacheSupportedFormats (initState true) (fun _ => true)).pixelFormat := by
  refine ⟨(getPixelFormat_spec.1 true).1, rfl, by decide, ?_⟩
  exact (getPixelFormat_spec.2.2 (cacheSupportedFormats (initState true)
    (fun _ => true)) rfl).2 (by decide)


/-- Witness for C8 on a concrete successful `createFrame`. -/
theorem createFrame_preserves_pending_data_witness :
    (createFrame readyState (hwOk 8)).code = 0 ∧
    ((createFrame readyState (hwOk 8)).state.pendingFrameData =
        readyState.pendingFrameData ∧
      (createFrame readyState (hwOk 8)).state.width = readyState.width ∧
      (createFrame readyState (hwOk 8)).state.height = readyState.height ∧
      (createFrame readyState (hwOk 8)).packedSrc =
        some readyState.pendingFrameData ∧
      readyState.pendingFrameData ≠ [] ∧
      (createFrame ((createFrame readyState (hwOk 8)).state) (hwOk 8)).code = 0 ∧
      (createFrame ((createFrame readyState (hwOk 8)).state) (hwOk 8)).packedSrc =
        some readyState.pendingFrameData) :=
  ⟨by decide, createFrame_preserves_pending_data readyState (hwOk 8) (by decide)⟩

end BMDSignalGen
